import Mathlib

/-!
Verification of the chromatix optical-system composition core.

We give a shallow embedding of the code under src/: the pipeline composer
OpticalSystem and the factory system_prop_lens_prop
(src/src/chromatix/systems/optical_system.py), and the source elements
PointSource, ObjectivePointSource and GaussianPlaneWave
(src/src/chromatix/elements/sources.py).  Parts of the repository the shown
source only imports (the functional layer chromatix.functional.sources, the
elements Propagate and ThinLens, and the registration helper
chromatix.elements.utils.register) are modelled from the specification and
say so in their doc comments.
-/

namespace Chromatix

/-- Python runtime errors the embedded code can raise: indexing an empty list
raises an index error (elements[0] in OpticalSystem.__call__), and a callable
applied to arguments it cannot consume raises a type error. -/
inductive PyError where
  | indexError
  | typeError
deriving DecidableEq

/-- The argument tuple of a Python call: the positional arguments in order
plus the keyword arguments.  OpticalSystem.__call__ receives *args, **kwargs
and forwards them to the first element. -/
structure Args (V : Type) where
  positional : List V
  keyword : List (String × V)

/-- The argument tuple the composer uses for every element after the first:
exactly one positional argument, the current field, and no keyword
arguments, as in the loop body field = element(field). -/
def Args.ofField {V : Type} (v : V) : Args V := ⟨[v], []⟩

/-- A pipeline element as OpticalSystem stores it: an arbitrary Python
callable over dynamic values of type V; a call either returns a value or
raises. -/
def Elem (V : Type) : Type := Args V → Except PyError V

/-- OpticalSystem (a flax nn.Module dataclass): an ordered sequence of
elements.  The element type is a parameter so the same structure serves the
behavioural views (Elem, StatefulElem) and the configuration view
(Element). -/
structure OpticalSystem (E : Type) where
  elements : List E

/-- Constructing the flax dataclass performs no validation of elements: the
class body declares the field and nothing else, so any list, the empty list
included, yields a module instance. -/
def OpticalSystem.construct {E : Type} (es : List E) : Except PyError (OpticalSystem E) :=
  .ok ⟨es⟩

/-- The loop for element in self.elements[1:]: field = element(field).  A
raised error aborts the loop; no later element runs. -/
def runElements {V : Type} : List (Elem V) → Except PyError V → Except PyError V
  | [], field => field
  | _ :: _, .error err => .error err
  | e :: rest, .ok v => runElements rest (e (Args.ofField v))

/-- OpticalSystem.__call__: field = self.elements[0](*args, **kwargs), then
the loop over self.elements[1:], returning the final field; on an empty
elements list the subscript elements[0] raises an index error. -/
def OpticalSystem.call {V : Type} (sys : OpticalSystem (Elem V)) (args : Args V) :
    Except PyError V :=
  match sys.elements with
  | [] => .error .indexError
  | e0 :: rest => runElements rest (e0 args)

/-- An element that is a plain unary field-to-field function: it accepts
exactly one positional argument and no keyword arguments, and otherwise
raises a type error, like a Python function of one parameter. -/
def Elem.ofFn {V : Type} (f : V → V) : Elem V :=
  fun a =>
    match a.positional, a.keyword with
    | [v], [] => .ok (f v)
    | _, _ => .error .typeError

theorem runElements_error {V : Type} (es : List (Elem V)) (err : PyError) :
    runElements es (.error err) = .error err := by
  cases es <;> rfl

theorem runElements_append {V : Type} (l1 l2 : List (Elem V)) (x : Except PyError V) :
    runElements (l1 ++ l2) x = runElements l2 (runElements l1 x) := by
  induction l1 generalizing x with
  | nil => rfl
  | cons e rest ih =>
    cases x with
    | error err =>
      rw [runElements_error, runElements_error, runElements_error]
    | ok v =>
      exact ih (e (Args.ofField v))

theorem runElements_map_ofFn {V : Type} (fs : List (V → V)) (x : Except PyError V) :
    runElements (fs.map Elem.ofFn) x
      = x.map (fun v => fs.foldl (fun field f => f field) v) := by
  induction fs generalizing x with
  | nil => cases x <;> rfl
  | cons f fs ih =>
    cases x with
    | error err => rfl
    | ok v =>
      show runElements (fs.map Elem.ofFn) (Elem.ofFn f (Args.ofField v)) = _
      rw [show Elem.ofFn f (Args.ofField v) = Except.ok (f v) from rfl, ih]
      rfl

theorem foldl_bind_error {V : Type} (es : List (Elem V)) (err : PyError) :
    es.foldl (fun (field : Except PyError V) (e : Elem V) => field.bind fun v => e ⟨[v], []⟩) (.error err)
      = .error err := by
  induction es with
  | nil => rfl
  | cons e rest ih => exact ih

theorem runElements_eq_foldl {V : Type} (es : List (Elem V)) (x : Except PyError V) :
    runElements es x
      = es.foldl (fun (field : Except PyError V) (e : Elem V) => field.bind fun v => e ⟨[v], []⟩) x := by
  induction es generalizing x with
  | nil => rfl
  | cons e rest ih =>
    cases x with
    | error err =>
      rw [runElements_error, foldl_bind_error]
    | ok v =>
      exact ih (e (Args.ofField v))

/-- C1: for a non-empty element sequence e0 :: fs whose later elements are
field-to-field functions, invocation computes field = e0(args) and then
applies each later element in order to the running field, returning the
final value; in particular a single-element system simply returns
e0(args). -/
theorem opticalSystem_call_sequential_composition {V : Type} (e0 : Elem V)
    (fs : List (V → V)) (args : Args V) :
    OpticalSystem.call ⟨e0 :: fs.map Elem.ofFn⟩ args
        = (e0 args).map (fun v => fs.foldl (fun field f => f field) v)
      ∧ OpticalSystem.call ⟨[e0]⟩ args = e0 args := by
  constructor
  · show runElements (fs.map Elem.ofFn) (e0 args) = _
    exact runElements_map_ofFn fs (e0 args)
  · rfl

/-- C9: __call__ forwards the whole argument tuple, positional and keyword,
to the first element only; every element after the first is invoked with
exactly one positional argument — the value returned by the previous
element — and an empty keyword list. -/
theorem opticalSystem_call_argument_convention {V : Type} (e0 : Elem V)
    (rest : List (Elem V)) (args : Args V) :
    OpticalSystem.call ⟨e0 :: rest⟩ args
      = rest.foldl (fun (field : Except PyError V) (e : Elem V) => field.bind fun v => e ⟨[v], []⟩) (e0 args) := by
  show runElements rest (e0 args) = _
  exact runElements_eq_foldl rest (e0 args)

/-- C3 counterexample: constructing an OpticalSystem with an empty elements
sequence succeeds (the dataclass constructor validates nothing), and the
failure only happens at invocation, where __call__ raises an index error at
elements[0] — so the claim that construction fails before any invocation is
false. -/
theorem opticalSystem_empty_construct_succeeds_call_fails :
    OpticalSystem.construct ([] : List (Elem Nat)) = .ok ⟨[]⟩
      ∧ OpticalSystem.call (⟨[]⟩ : OpticalSystem (Elem Nat)) ⟨[], []⟩
          = .error .indexError :=
  ⟨rfl, rfl⟩

/-- C3 amended: constructing an OpticalSystem never fails, whatever the
elements list; an empty list is detected only when the system is invoked
(flax initialization included, since it invokes __call__), at which point
the subscript elements[0] raises an index error. -/
theorem opticalSystem_empty_elements_fails_at_invocation {E V : Type}
    (es : List E) (args : Args V) :
    OpticalSystem.construct es = .ok ⟨es⟩
      ∧ OpticalSystem.call (⟨[]⟩ : OpticalSystem (Elem V)) args
          = .error .indexError :=
  ⟨rfl, rfl⟩

/-- C7: the composer passes each stage's output directly, with no coercion
and no validation, as the sole input of the next stage; if that stage then
raises on the value it received, the error is surfaced immediately as the
result of the whole call — no later stage runs and nothing recovers it. -/
theorem opticalSystem_call_surfaces_stage_error {V : Type} (e0 : Elem V)
    (rest1 : List (Elem V)) (e : Elem V) (rest2 : List (Elem V)) (args : Args V)
    (v : V) (err : PyError)
    (h1 : OpticalSystem.call ⟨e0 :: rest1⟩ args = .ok v)
    (h2 : e (Args.ofField v) = .error err) :
    OpticalSystem.call ⟨e0 :: (rest1 ++ e :: rest2)⟩ args = .error err := by
  have hrun : runElements rest1 (e0 args) = .ok v := h1
  show runElements (rest1 ++ e :: rest2) (e0 args) = .error err
  rw [runElements_append, hrun]
  show runElements rest2 (e (Args.ofField v)) = .error err
  rw [h2, runElements_error]

/-- Witness for C7: a three-stage system over natural numbers whose middle
stage raises a type error on the value 3 produced by the first stage; the
whole call returns that error. -/
theorem opticalSystem_call_surfaces_stage_error_witness :
    OpticalSystem.call
        ⟨(fun _ => .ok 3 : Elem Nat)
           :: ([] ++ (fun _ => .error .typeError : Elem Nat)
                :: [(fun _ => .ok 7 : Elem Nat)])⟩ ⟨[], []⟩
      = .error .typeError :=
  opticalSystem_call_surfaces_stage_error (fun _ => .ok 3) []
    (fun _ => .error .typeError) [fun _ => .ok 7] ⟨[], []⟩ 3 .typeError rfl rfl

/-- An element attribute as the caller supplies it: either a concrete value
or a generator callable taking a seed/context key (spec section 6; Python
annotations such as ScalarLike | Callable[[PRNGKey], Array] describe this
but do not enforce it).  Keys are modelled as natural numbers. -/
inductive Param (α : Type) where
  | value (v : α)
  | generator (g : Nat → α)

/-- True when the attribute already is a concrete value rather than a
generator callable. -/
def Param.isValue {α : Type} : Param α → Bool
  | .value _ => true
  | .generator _ => false

/-- Modelled from the spec: chromatix.elements.utils.register, not under
src/, is the trainable-parameter collaborator of section 6
(resolve(attr, context) -> value): at build time it resolves an attribute
to a concrete value, returning a concrete value as is and applying a
generator callable to the key. -/
def register {α : Type} (p : Param α) (key : Nat) : α :=
  match p with
  | .value v => v
  | .generator g => g key

/-- float(np.finfo(np.float32).eps): the float32 machine epsilon, exactly
2 to the power -23. -/
def float32_eps : ℚ := 1 / 2 ^ 23

/-- PointSource (src/src/chromatix/elements/sources.py): configuration
attributes in source order, scalars modelled as rationals.  z, n, power and
amplitude are the attributes the source registers; epsilon is annotated as
a plain float and is not registered.  F is the field type; the pupil is a
Field -> Field callable that the shown code only stores and forwards. -/
structure PointSource (F : Type) where
  shape : Nat × Nat
  dx : ℚ
  spectrum : ℚ
  spectral_density : ℚ
  z : Param ℚ
  n : Param ℚ
  power : Param ℚ
  amplitude : Param ℚ
  pupil : Option (F → F)
  scalar : Bool
  epsilon : ℚ

/-- A PointSource built with only the required attributes, the others at
their source defaults: power = 1.0, amplitude = 1.0, pupil = None,
scalar = True, epsilon = float(np.finfo(np.float32).eps). -/
def PointSource.withDefaults {F : Type} (shape : Nat × Nat)
    (dx spectrum spectral_density : ℚ) (z n : Param ℚ) : PointSource F :=
  ⟨shape, dx, spectrum, spectral_density, z, n, .value 1, .value 1, none,
   true, float32_eps⟩

/-- The argument tuple PointSource.__call__ passes to the functional
point_source (chromatix.functional.sources, not under src/), in source
order: z, n, power and amplitude hold register results, everything else is
forwarded as stored. -/
structure PointSourceArgs (F : Type) where
  shape : Nat × Nat
  dx : ℚ
  spectrum : ℚ
  spectral_density : ℚ
  z : ℚ
  n : ℚ
  power : ℚ
  amplitude : ℚ
  pupil : Option (F → F)
  scalar : Bool
  epsilon : ℚ

/-- PointSource.__call__: registers power, z, n and amplitude and passes
them, with the remaining attributes — epsilon included, unregistered — to
point_source. -/
def PointSource.call {F : Type} (ps : PointSource F) (key : Nat) :
    PointSourceArgs F :=
  ⟨ps.shape, ps.dx, ps.spectrum, ps.spectral_density,
   register ps.z key, register ps.n key, register ps.power key,
   register ps.amplitude key, ps.pupil, ps.scalar, ps.epsilon⟩

/-- ObjectivePointSource (src/src/chromatix/elements/sources.py):
configuration attributes in source order.  The defocus distance z is not
among them: it is an argument of __call__. -/
structure ObjectivePointSource (F : Type) where
  shape : Nat × Nat
  dx : ℚ
  spectrum : ℚ
  spectral_density : ℚ
  f : Param ℚ
  n : Param ℚ
  NA : Param ℚ
  power : Param ℚ
  amplitude : Param ℚ
  offset : Param (ℚ × ℚ)
  scalar : Bool

/-- The argument tuple ObjectivePointSource.__call__ passes to the
functional objective_point_source (chromatix.functional.sources, not under
src/), in source order. -/
structure ObjectivePointSourceArgs where
  shape : Nat × Nat
  dx : ℚ
  spectrum : ℚ
  spectral_density : ℚ
  z : ℚ
  f : ℚ
  n : ℚ
  NA : ℚ
  power : ℚ
  amplitude : ℚ
  offset : ℚ × ℚ
  scalar : Bool

/-- ObjectivePointSource.__call__(z): registers f, n, NA, power, amplitude
and offset and passes them, together with the per-call argument z, to
objective_point_source. -/
def ObjectivePointSource.call {F : Type} (o : ObjectivePointSource F)
    (key : Nat) (z : ℚ) : ObjectivePointSourceArgs :=
  ⟨o.shape, o.dx, o.spectrum, o.spectral_density, z,
   register o.f key, register o.n key, register o.NA key,
   register o.power key, register o.amplitude key, register o.offset key,
   o.scalar⟩

/-- GaussianPlaneWave (src/src/chromatix/elements/sources.py):
configuration attributes in source order.  kykx, power and amplitude are
the attributes its __call__ registers; waist is annotated ScalarLike and is
passed to gaussian_plane_wave without registration. -/
structure GaussianPlaneWave (F : Type) where
  shape : Nat × Nat
  dx : ℚ
  spectrum : ℚ
  spectral_density : ℚ
  waist : Param ℚ
  power : Param ℚ
  amplitude : Param ℚ
  kykx : Param (ℚ × ℚ)
  pupil : Option (F → F)
  scalar : Bool

/-- The argument tuple GaussianPlaneWave.__call__ passes to the functional
gaussian_plane_wave (chromatix.functional.sources, not under src/), in
source order.  The waist slot still has attribute type Param: the call
passes self.waist itself, so a generator-supplied waist arrives
unresolved. -/
structure GaussianPlaneWaveArgs (F : Type) where
  shape : Nat × Nat
  dx : ℚ
  spectrum : ℚ
  spectral_density : ℚ
  waist : Param ℚ
  power : ℚ
  amplitude : ℚ
  kykx : ℚ × ℚ
  pupil : Option (F → F)
  scalar : Bool

/-- GaussianPlaneWave.__call__: registers kykx, power and amplitude, and
passes self.waist through unregistered. -/
def GaussianPlaneWave.call {F : Type} (g : GaussianPlaneWave F) (key : Nat) :
    GaussianPlaneWaveArgs F :=
  ⟨g.shape, g.dx, g.spectrum, g.spectral_density, g.waist,
   register g.power key, register g.amplitude key, register g.kykx key,
   g.pupil, g.scalar⟩

/-- A configuration-level view of the elements system_prop_lens_prop
assembles.  Propagate and ThinLens are classes of chromatix.elements not
under src/; modelled from the spec they are configuration records: Propagate
carries a distance z and a medium index n (section 4.2), ThinLens carries a
focal length f, an index n and an optional numerical aperture NA
(section 4.3). -/
inductive Element (F : Type) where
  | gaussianPlaneWave (s : GaussianPlaneWave F)
  | propagate (z : ℚ) (n : ℚ)
  | thinLens (f : ℚ) (n : ℚ) (NA : Option ℚ)

/-- system_prop_lens_prop: builds the OpticalSystem source -> propagate ->
lens -> propagate.  The GaussianPlaneWave is constructed with the given
shape, dx, spectrum, spectral_density, waist and power, its remaining
attributes at their source defaults (amplitude = 1.0, kykx = (0.0, 0.0),
pupil = None, scalar = True). -/
def system_prop_lens_prop (F : Type) (shape : Nat × Nat)
    (dx spectrum spectral_density waist z1 z2 f n power : ℚ)
    (NA : Option ℚ) : OpticalSystem (Element F) :=
  ⟨[Element.gaussianPlaneWave
      ⟨shape, dx, spectrum, spectral_density, .value waist, .value power,
       .value 1, .value (0, 0), none, true⟩,
    Element.propagate z1 n,
    Element.thinLens f n NA,
    Element.propagate z2 n]⟩

/-- C2: for every argument combination, system_prop_lens_prop returns an
OpticalSystem whose elements are exactly, in order: the GaussianPlaneWave
configured with the given shape, dx, spectrum, spectral_density, waist and
power (its other attributes at their defaults); Propagate with distance z1
and index n; ThinLens with focal length f, index n and numerical aperture
NA; and Propagate with distance z2 and index n. -/
theorem system_prop_lens_prop_elements (F : Type) (shape : Nat × Nat)
    (dx spectrum spectral_density waist z1 z2 f n power : ℚ)
    (NA : Option ℚ) :
    (system_prop_lens_prop F shape dx spectrum spectral_density waist z1 z2
        f n power NA).elements
      = [Element.gaussianPlaneWave
           ⟨shape, dx, spectrum, spectral_density, Param.value waist,
            Param.value power, Param.value 1, Param.value (0, 0), none, true⟩,
         Element.propagate z1 n,
         Element.thinLens f n NA,
         Element.propagate z2 n] := rfl

/-- C5: the defocus distance z is an argument of each ObjectivePointSource
call, not a configuration attribute, and the call passes exactly that z,
together with the registered configured f, n, NA, power, amplitude and
offset, to objective_point_source — so one configured element called with
different z values produces argument tuples carrying those different z
values. -/
theorem objectivePointSource_call_passes_z (F : Type)
    (o : ObjectivePointSource F) (key : Nat) (z : ℚ) :
    o.call key z
      = ⟨o.shape, o.dx, o.spectrum, o.spectral_density, z,
         register o.f key, register o.n key, register o.NA key,
         register o.power key, register o.amplitude key,
         register o.offset key, o.scalar⟩ := rfl

/-- A GaussianPlaneWave whose waist is supplied as a generator callable,
every other attribute a concrete value (the grid and spacings of the
example script). -/
def gaussianWithGeneratorWaist : GaussianPlaneWave Unit :=
  ⟨(256, 256), 1 / 1000000, 6328 / 10000000000, 1,
   .generator (fun k => (k : ℚ) + 5), .value 1, .value 1, .value (0, 0),
   none, true⟩

/-- C6 counterexample: for the element gaussianWithGeneratorWaist the waist
that reaches the numerical call gaussian_plane_wave is still the generator
callable, not a resolved concrete value — GaussianPlaneWave.__call__
registers kykx, power and amplitude but passes self.waist through — so the
claim that every generator-supplied attribute is resolved before the
element's numerical computation executes is false. -/
theorem gaussianPlaneWave_waist_not_resolved :
    Param.isValue ((gaussianWithGeneratorWaist.call 0).waist) = false := rfl

/-- C6 amended: the attributes each element designates as trainable — z, n,
power and amplitude for PointSource; kykx, power and amplitude for
GaussianPlaneWave — may be supplied as concrete values or as generator
callables and are resolved by register (a value returned as is, a generator
applied to the key) before the numerical call executes;
GaussianPlaneWave.waist is not among them and is passed unresolved. -/
theorem source_attributes_resolved_by_register (F : Type) (ps : PointSource F)
    (g : GaussianPlaneWave F) (key : Nat) (v : ℚ) (gen : Nat → ℚ) :
    register (Param.value v) key = v
      ∧ register (Param.generator gen) key = gen key
      ∧ (ps.call key).z = register ps.z key
      ∧ (ps.call key).n = register ps.n key
      ∧ (ps.call key).power = register ps.power key
      ∧ (ps.call key).amplitude = register ps.amplitude key
      ∧ (g.call key).power = register g.power key
      ∧ (g.call key).amplitude = register g.amplitude key
      ∧ (g.call key).kykx = register g.kykx key
      ∧ (g.call key).waist = g.waist :=
  ⟨rfl, rfl, rfl, rfl, rfl, rfl, rfl, rfl, rfl, rfl⟩

/-- C10: epsilon is a per-element configuration attribute of PointSource
whose default is the float32 machine epsilon 2 ^ (-23), and every call
passes it to point_source unchanged and independently of the key — it never
goes through the trainable-parameter mechanism. -/
theorem pointSource_epsilon_plain (F : Type) (shape : Nat × Nat)
    (dx spectrum spectral_density : ℚ) (za na : Param ℚ) (ps : PointSource F)
    (key key2 : Nat) :
    (PointSource.withDefaults shape dx spectrum spectral_density za na
        : PointSource F).epsilon = 1 / 2 ^ 23
      ∧ (ps.call key).epsilon = ps.epsilon
      ∧ (ps.call key2).epsilon = (ps.call key).epsilon :=
  ⟨rfl, rfl, rfl⟩

/-- A pipeline element viewed with an explicit ambient state: a Python
callable may in principle read or mutate interpreter state, so a call takes
the current state and returns its result together with the successor
state. -/
def StatefulElem (V S : Type) : Type := Args V → S → Except PyError V × S

/-- The element is a pure function of its arguments: every call leaves the
ambient state unchanged and its result does not depend on that state.  This
is what resolving all parameters buys for flax modules and plain
functions. -/
def DetStateless {V S : Type} (e : StatefulElem V S) : Prop :=
  ∀ (a : Args V) (s s' : S), (e a s).2 = s ∧ (e a s).1 = (e a s').1

/-- The loop of OpticalSystem.__call__ with the ambient state threaded
through the element calls; a raised error aborts the loop, leaving the
state as the raising element left it. -/
def runElementsS {V S : Type} :
    List (StatefulElem V S) → Except PyError V × S → Except PyError V × S
  | [], fs => fs
  | _ :: _, (.error err, s) => (.error err, s)
  | e :: rest, (.ok v, s) => runElementsS rest (e (Args.ofField v) s)

/-- OpticalSystem.__call__ in the state-explicit view.  The method body
itself only subscripts elements and rebinds the local variable field: it
reads and writes no ambient state of its own. -/
def OpticalSystem.callS {V S : Type} (sys : OpticalSystem (StatefulElem V S))
    (args : Args V) (s : S) : Except PyError V × S :=
  match sys.elements with
  | [] => (.error .indexError, s)
  | e0 :: rest => runElementsS rest (e0 args s)

theorem runElementsS_stateless {V S : Type} (es : List (StatefulElem V S))
    (h : ∀ e ∈ es, DetStateless e) (f : Except PyError V) (s s' : S) :
    (runElementsS es (f, s)).2 = s
      ∧ (runElementsS es (f, s)).1 = (runElementsS es (f, s')).1 := by
  induction es generalizing f s s' with
  | nil => exact ⟨rfl, rfl⟩
  | cons e rest ih =>
    have he : DetStateless e := h e (List.mem_cons_self e rest)
    have hrest : ∀ x ∈ rest, DetStateless x :=
      fun x hx => h x (List.mem_cons_of_mem e hx)
    cases f with
    | error err => exact ⟨rfl, rfl⟩
    | ok v =>
      have h2 : e (Args.ofField v) s
          = ((e (Args.ofField v) s).1, s) := by
        have := (he (Args.ofField v) s s).1
        exact Prod.ext rfl this
      have h2' : e (Args.ofField v) s'
          = ((e (Args.ofField v) s).1, s') := by
        have ha := (he (Args.ofField v) s' s').1
        have hb := (he (Args.ofField v) s' s).2
        calc e (Args.ofField v) s'
            = ((e (Args.ofField v) s').1, (e (Args.ofField v) s').2) := rfl
          _ = ((e (Args.ofField v) s).1, s') := by rw [ha, hb]
      show (runElementsS rest (e (Args.ofField v) s)).2 = s
        ∧ (runElementsS rest (e (Args.ofField v) s)).1
            = (runElementsS rest (e (Args.ofField v) s')).1
      rw [h2, h2']
      exact ih hrest ((e (Args.ofField v) s).1) s s'

/-- C8: with every element a pure function of its arguments (the situation
once all trainable parameters are resolved), OpticalSystem invocation is
deterministic and stateless: a call leaves the ambient state exactly as it
was and its result does not depend on that state, so two invocations with
identical arguments return identical results and neither call observes or
affects the other. -/
theorem opticalSystem_call_deterministic_stateless {V S : Type}
    (sys : OpticalSystem (StatefulElem V S))
    (h : ∀ e ∈ sys.elements, DetStateless e) (args : Args V) (s s' : S) :
    (sys.callS args s).2 = s ∧ (sys.callS args s).1 = (sys.callS args s').1 := by
  obtain ⟨es⟩ := sys
  cases es with
  | nil => exact ⟨rfl, rfl⟩
  | cons e0 rest =>
    have he0 : DetStateless e0 := h e0 (List.mem_cons_self e0 rest)
    have hrest : ∀ x ∈ rest, DetStateless x :=
      fun x hx => h x (List.mem_cons_of_mem e0 hx)
    have h2 : e0 args s = ((e0 args s).1, s) :=
      Prod.ext rfl (he0 args s s).1
    have h2' : e0 args s' = ((e0 args s).1, s') := by
      calc e0 args s' = ((e0 args s').1, (e0 args s').2) := rfl
        _ = ((e0 args s).1, s') := by
            rw [(he0 args s' s').1, (he0 args s' s).2]
    show (runElementsS rest (e0 args s)).2 = s
      ∧ (runElementsS rest (e0 args s)).1 = (runElementsS rest (e0 args s')).1
    rw [h2, h2']
    exact runElementsS_stateless rest hrest ((e0 args s).1) s s'

/-- A concrete stateless element over natural-number values and states,
returning the value 1 and leaving the state alone. -/
def constOneElem : StatefulElem Nat Nat := fun _ s => (.ok 1, s)

/-- Witness for C8: the single-element system built from constOneElem,
called from states 0 and 5: the call leaves state 0 unchanged and produces
the same result from either state. -/
theorem opticalSystem_call_deterministic_stateless_witness :
    (OpticalSystem.callS ⟨[constOneElem]⟩ ⟨[], []⟩ 0).2 = 0
      ∧ (OpticalSystem.callS ⟨[constOneElem]⟩ ⟨[], []⟩ 0).1
          = (OpticalSystem.callS ⟨[constOneElem]⟩ ⟨[], []⟩ 5).1 :=
  opticalSystem_call_deterministic_stateless ⟨[constOneElem]⟩
    (by
      intro e he
      rw [List.mem_singleton] at he
      subst he
      intro a s s'
      exact ⟨rfl, rfl⟩)
    ⟨[], []⟩ 0 5

/-- Modelled from the spec (section 4.2, step 1): Propagate is a class of
chromatix.elements not under src/.  This is the standard two-sided,
zero-centred discrete frequency for index k of N samples spaced dx. -/
def fftfreq (N : Nat) (dx : ℚ) (k : Nat) : ℚ :=
  (if 2 * k < N then (k : ℚ) else (k : ℚ) - (N : ℚ)) / ((N : ℚ) * dx)

/-- Modelled from the spec (section 4.2, step 2): the radicand
(n / lambda) ^ 2 - fy ^ 2 - fx ^ 2 of the axial wavenumber, the common
factor (2 pi) ^ 2 taken out; its sign separates propagating from evanescent
frequencies. -/
def radicand (n lam fy fx : ℚ) : ℚ :=
  (n / lam) ^ 2 - fy ^ 2 - fx ^ 2

/-- Modelled from the spec (section 4.2, steps 2 to 4): the angular-spectrum
transfer function H = exp(i kz z) with kz = 2 pi sqrt(radicand) on the
propagating band and H = 0 on the evanescent band (step 3: evanescent
contributions are set to zero); the optional band-limiting mask of step 6 is
disabled, as the round-trip claim stipulates. -/
noncomputable def transfer (n lam z fy fx : ℚ) : ℂ :=
  if 0 ≤ radicand n lam fy fx then
    Complex.exp (Complex.I
      * ((2 * Real.pi * Real.sqrt (radicand n lam fy fx) : ℝ) : ℂ)
      * ((z : ℝ) : ℂ))
  else 0

/-- Modelled from the spec (section 4.2, step 5): the propagation operator
on the angular-spectrum representation of one wavelength channel lam in a
medium of index n.  F ky kx is the spectral amplitude at the frequency pair
indexed (ky, kx) of an Nh by Nw grid spaced (dy, dx).  The forward and
inverse Fourier transforms that surround the elementwise multiplication in
step 5 are mutually inverse bijections applied identically by every
Propagate application, so a composition of propagations acts on the
spectrum by the product of the transfer functions; we therefore state the
operator, and the round trip, on spectra. -/
noncomputable def propagate_spectrum (Nh Nw : Nat) (dy dx n lam z : ℚ)
    (F : Fin Nh → Fin Nw → ℂ) : Fin Nh → Fin Nw → ℂ :=
  fun ky kx =>
    transfer n lam z (fftfreq Nh dy ky.val) (fftfreq Nw dx kx.val) * F ky kx

/-- C4 amended: with band-limiting disabled, propagating by z and then by
-z multiplies each propagating spectral component by
exp(i kz z) exp(-i kz z) = 1, leaving it exactly unchanged (the embedding
is over exact reals, so up-to-rounding equality is exact equality), while
each evanescent component is zeroed by both passes: the composite returns
the original field exactly on the propagating band, and equals the original
field precisely when the field carries no evanescent content. -/
theorem propagate_roundtrip (Nh Nw : Nat) (dy dx n lam z : ℚ)
    (F : Fin Nh → Fin Nw → ℂ) (ky : Fin Nh) (kx : Fin Nw) :
    propagate_spectrum Nh Nw dy dx n lam (-z)
        (propagate_spectrum Nh Nw dy dx n lam z F) ky kx
      = if 0 ≤ radicand n lam (fftfreq Nh dy ky.val) (fftfreq Nw dx kx.val)
          then F ky kx else 0 := by
  by_cases h : 0 ≤ radicand n lam (fftfreq Nh dy ky.val) (fftfreq Nw dx kx.val)
  · simp only [propagate_spectrum, transfer, h, if_true]
    rw [← mul_assoc, ← Complex.exp_add]
    have harg : Complex.I
          * ((2 * Real.pi * Real.sqrt (radicand n lam (fftfreq Nh dy ky.val)
              (fftfreq Nw dx kx.val)) : ℝ) : ℂ)
          * (((-z : ℚ) : ℝ) : ℂ)
        + Complex.I
          * ((2 * Real.pi * Real.sqrt (radicand n lam (fftfreq Nh dy ky.val)
              (fftfreq Nw dx kx.val)) : ℝ) : ℂ)
          * (((z : ℚ) : ℝ) : ℂ) = 0 := by
      push_cast
      ring
    rw [harg, Complex.exp_zero, one_mul]
  · simp only [propagate_spectrum, transfer, h, if_false]
    rw [zero_mul]

/-- C4 counterexample: on a 2 by 2 grid spaced 1/2 with index n = 1 and
wavelength 1, the frequency pair indexed (1, 1) is (-1, -1), whose radicand
1 - 1 - 1 = -1 is negative (evanescent); for the constant-one spectrum, the
round trip Propagate(-1) after Propagate(1) with band-limiting disabled
returns 0 at that pair while the original component is 1, so the round trip
does not return the original field. -/
theorem propagate_roundtrip_counterexample :
    propagate_spectrum 2 2 (1 / 2) (1 / 2) 1 1 (-1)
        (propagate_spectrum 2 2 (1 / 2) (1 / 2) 1 1 1 (fun _ _ => 1)) 1 1 = 0
      ∧ ((1 : ℂ) ≠ 0) := by
  constructor
  · have hr : radicand 1 1 (fftfreq 2 (1 / 2) (1 : Fin 2).val)
        (fftfreq 2 (1 / 2) (1 : Fin 2).val) = -1 := by
      norm_num [radicand, fftfreq]
    have hneg : ¬ (0 : ℚ) ≤ radicand 1 1 (fftfreq 2 (1 / 2) (1 : Fin 2).val)
        (fftfreq 2 (1 / 2) (1 : Fin 2).val) := by
      rw [hr]
      norm_num
    simp only [propagate_spectrum, transfer, hneg, if_false]
    rw [zero_mul]
  · exact one_ne_zero

end Chromatix
